import Mathlib

set_option maxRecDepth 100000

/-!
Shallow embedding of `src/main.py` (class `DataAnalyzer`): a pandas-based
exploratory data-analysis utility.  Tables are modelled as ordered lists of
named, dtyped columns; the numpy global random generator is modelled as a
seed/position stream whose word values, Gaussian transform and weighted-choice
threshold test are abstract parameters bundled in `NumpyRNG`; file-system
interaction is modelled by explicit state records (`LoadFS`, `DirFS`);
matplotlib side effects are modelled as descriptions of the figures and the
files written.  Python floats (the `valor` samples and the `describe`
statistics other than `count`) are kept abstract: a float value is represented
by the `Int` bit-pattern produced by the abstract Gaussian transform.
-/

namespace ProjetoExemplo

/-- Pandas dtypes that occur in the program: `int64`, `float64`, `object`,
`category`, `datetime64[ns]`, `bool`. -/
inductive Dtype where
  | int64
  | float64
  | object
  | category
  | datetime64
  | bool
deriving DecidableEq, Repr

/-- A cell value.  `floatVal` carries the abstract bit-pattern of a Python
float64; `dateVal` carries days since 2023-01-01; `null` is a missing value
(NaN/None). -/
inductive Value where
  | intVal (n : Int)
  | floatVal (bits : Int)
  | strVal (s : String)
  | dateVal (d : Nat)
  | boolVal (b : Bool)
  | null
deriving DecidableEq, Repr

/-- A pandas column: a name, a dtype and the list of cell values. -/
structure Column where
  name : String
  dtype : Dtype
  values : List Value
deriving DecidableEq, Repr

/-- A pandas DataFrame: an ordered list of columns. -/
structure DataFrame where
  cols : List Column
deriving DecidableEq, Repr

/-- Row count of a DataFrame: the length of its first column (0 when there are
no columns), matching `len(df.index)` for well-formed frames. -/
def DataFrame.nRows (df : DataFrame) : Nat :=
  match df.cols with
  | [] => 0
  | c :: _ => c.values.length

/-- `df.shape`: the (rows, columns) pair. -/
def DataFrame.shape (df : DataFrame) : Nat × Nat :=
  (df.nRows, df.cols.length)

/-- `df.columns` as a list of names. -/
def DataFrame.columnNames (df : DataFrame) : List String :=
  df.cols.map (fun c => c.name)

/-- Look a column up by name (`df[name]`). -/
def DataFrame.colNamed (df : DataFrame) (nm : String) : Option Column :=
  df.cols.find? (fun c => c.name == nm)

/-- Dtypes matched by `select_dtypes(include=[np.number])`: `int64` and
`float64` (pandas excludes `bool` and `datetime64` from `np.number`). -/
def isNumericDtype : Dtype → Bool
  | .int64 => true
  | .float64 => true
  | _ => false

/-- Dtypes matched by `select_dtypes(include=['object', 'category'])`, as used
for the categorical summary in `analyze`. -/
def isObjectDtype : Dtype → Bool
  | .object => true
  | .category => true
  | _ => false

/-- Dtypes matched by `select_dtypes(include=['object', 'category', 'bool'])`,
as used for the categorical plot in `create_visualizations`. -/
def isCatPlotDtype : Dtype → Bool
  | .object => true
  | .category => true
  | .bool => true
  | _ => false

/-- Columns selected by `select_dtypes(include=[np.number])`. -/
def numericCols (df : DataFrame) : List Column :=
  df.cols.filter (fun c => isNumericDtype c.dtype)

/-- Columns selected by `select_dtypes(include=['object', 'category'])`. -/
def objectCols (df : DataFrame) : List Column :=
  df.cols.filter (fun c => isObjectDtype c.dtype)

/-- Columns selected by `select_dtypes(include=['object', 'category', 'bool'])`. -/
def catPlotCols (df : DataFrame) : List Column :=
  df.cols.filter (fun c => isCatPlotDtype c.dtype)

/-- Number of missing values in a column (`df[col].isnull().sum()`). -/
def nullCount (vs : List Value) : Nat :=
  vs.countP (fun v => v == Value.null)

/-- Count of the occurrences of one value in a column. -/
def countVal (vs : List Value) (v : Value) : Nat :=
  vs.countP (fun w => w == v)

/-- Distinct values of a column in first-seen order. -/
def firstSeen (vs : List Value) : List Value :=
  vs.foldl (fun acc v => if v ∈ acc then acc else acc ++ [v]) []

/-- Insert into a count-descending list, after all strictly larger counts and
after equal counts (stable for ties). -/
def insertDesc (p : Value × Nat) : List (Value × Nat) → List (Value × Nat)
  | [] => [p]
  | q :: rest => if p.2 > q.2 then p :: q :: rest else q :: insertDesc p rest

/-- Sort value/count pairs by descending count, stable on ties. -/
def sortDesc : List (Value × Nat) → List (Value × Nat)
  | [] => []
  | p :: rest => insertDesc p (sortDesc rest)

/-- `df[col].value_counts().to_dict()`: frequency of each distinct non-null
value, in descending-count order. -/
def valueCounts (vs : List Value) : List (Value × Nat) :=
  sortDesc ((firstSeen (vs.filter (fun v => !(v == Value.null)))).map
    (fun v => (v, countVal vs v)))

/-!  The numpy global random generator.  `np.random.seed(s)` puts the stream
into a state fully determined by `s`; every subsequent draw consumes stream
positions in order.  The Mersenne-Twister word function and the transforms
from words to samples are left abstract as the fields of `NumpyRNG`: every
theorem below holds for an arbitrary instance, i.e. for the actual numpy
algorithms in particular. -/

/-- The abstract randomness of `np.random`:
`word s i` is the i-th word of the stream seeded with `s`;
`gauss w` is the float64 bit-pattern that `np.random.normal(100, 25, _)`
produces from word `w`;
`ltP7 w` tells whether the uniform double derived from `w` is below 0.7,
which is exactly when `np.random.choice([True, False], _, p=[0.7, 0.3])`
picks `True`. -/
structure NumpyRNG where
  word : Nat → Nat → Nat
  gauss : Nat → Int
  ltP7 : Nat → Bool

/-- The state of the numpy global generator: current seed and stream
position. -/
structure NpState where
  seed : Nat
  pos : Nat
deriving DecidableEq, Repr

/-- The analysis session object (`DataAnalyzer` instance): the configured data
path and the cached table (`self.data`, `None` before any load). -/
structure Session where
  dataPath : String
  data : Option DataFrame
deriving DecidableEq, Repr

/-- `DataAnalyzer.__init__`: stores the path and sets `self.data = None`. -/
def DataAnalyzer.init (path : String) : Session :=
  { dataPath := path, data := none }

def nSamples : Nat := 1000

def categoriaLetters : List String := ["A", "B", "C", "D"]

/-- `np.random.choice(['A','B','C','D'], 1000)` after `seed(42)`: sample i is
the letter indexed by stream word i reduced mod 4. -/
def categoriaVals (rng : NumpyRNG) : List Value :=
  (List.range nSamples).map
    (fun i => Value.strVal (categoriaLetters.getD (rng.word 42 i % 4) "A"))

/-- `np.random.normal(100, 25, 1000)`: sample i is the Gaussian transform of
the stream word at position 1000 + i. -/
def valorVals (rng : NumpyRNG) : List Value :=
  (List.range nSamples).map
    (fun i => Value.floatVal (rng.gauss (rng.word 42 (nSamples + i))))

/-- `pd.date_range('2023-01-01', periods=1000, freq='D')`: day i is i days
after 2023-01-01. -/
def dataVals : List Value :=
  (List.range nSamples).map (fun i => Value.dateVal i)

/-- `np.random.choice([True, False], 1000, p=[0.7, 0.3])`: sample i is True
exactly when the uniform double of the word at position 2000 + i is below
0.7. -/
def ativoVals (rng : NumpyRNG) : List Value :=
  (List.range nSamples).map
    (fun i => Value.boolVal (rng.ltP7 (rng.word 42 (2 * nSamples + i))))

/-- `range(1, n_samples + 1)`: the ids 1..1000. -/
def idVals : List Value :=
  (List.range nSamples).map (fun (i : Nat) => Value.intVal ((i : Int) + 1))

/-- The DataFrame built by `generate_sample_data`.  `np.random.seed(42)` is
called first, so every draw reads the stream seeded with 42 from position 0
onward, independently of the generator state before the call. -/
def sampleTable (rng : NumpyRNG) : DataFrame :=
  { cols := [
      { name := "id", dtype := .int64, values := idVals },
      { name := "categoria", dtype := .object, values := categoriaVals rng },
      { name := "valor", dtype := .float64, values := valorVals rng },
      { name := "data", dtype := .datetime64, values := dataVals },
      { name := "ativo", dtype := .bool, values := ativoVals rng }] }

/-- `DataAnalyzer.generate_sample_data`: reseeds the global generator with 42,
draws the sample table (consuming 3000 stream positions), stores it in
`self.data` and returns it. -/
def generate_sample_data (rng : NumpyRNG) (st : NpState) (s : Session) :
    DataFrame × Session × NpState :=
  let df := sampleTable rng
  (df, { s with data := some df }, { seed := 42, pos := 3 * nSamples })

/-- The file system as seen by `load_data` at the configured path:
whether `self.data_path.exists()` and, when it does, the outcome of
`pd.read_csv` (`some df` on success, `none` when parsing raises). -/
structure LoadFS where
  pathExists : Bool
  parseResult : Option DataFrame
deriving Repr

/-- `DataAnalyzer.load_data`: read the CSV when the path exists and parsing
succeeds; otherwise (missing file, or any exception, caught by the
`try/except`) fall back to `generate_sample_data`.  Every branch stores the
returned table in `self.data`; totality of this function models that the
Python never lets an exception escape. -/
def load_data (rng : NumpyRNG) (lfs : LoadFS) (st : NpState) (s : Session) :
    DataFrame × Session × NpState :=
  if lfs.pathExists then
    match lfs.parseResult with
    | some df => (df, { s with data := some df }, st)
    | none => generate_sample_data rng st s
  else
    generate_sample_data rng st s

/-- One entry of the `analyze` result dict.  `describe()` statistics other
than the non-null count are float-valued and kept outside the embedding: a
numeric summary records each numeric column's name with its non-null count. -/
inductive AnalysisValue where
  | shape (rows cols : Nat)
  | columns (names : List String)
  | dtypes (ds : List (String × Dtype))
  | missing (ms : List (String × Nat))
  | numeric (summ : List (String × Nat))
  | cat (summ : List (String × List (Value × Nat)))
deriving DecidableEq, Repr

/-- `df.describe().to_dict()` restricted to what the embedding keeps: per
numeric column, its non-null count. -/
def describeSumm (df : DataFrame) : List (String × Nat) :=
  (numericCols df).map (fun c => (c.name, c.values.length - nullCount c.values))

/-- The body of `DataAnalyzer.analyze`: the literal dict built from a table.
The `numeric_summary` key is always present; its value is the `describe`
summary when at least one numeric column exists and the empty dict otherwise.
The `categorical_summary` comprehension iterates over
`select_dtypes(include=['object', 'category'])` columns only. -/
def analyzeTable (df : DataFrame) : List (String × AnalysisValue) :=
  [("shape", .shape df.nRows df.cols.length),
   ("columns", .columns df.columnNames),
   ("dtypes", .dtypes (df.cols.map (fun c => (c.name, c.dtype)))),
   ("missing_values", .missing (df.cols.map (fun c => (c.name, nullCount c.values)))),
   ("numeric_summary",
     .numeric (if (numericCols df).length > 0 then describeSumm df else [])),
   ("categorical_summary",
     .cat ((objectCols df).map (fun c => (c.name, valueCounts c.values))))]

/-- Extract the categorical summary from an analysis dict (empty when the key
is absent or of the wrong shape). -/
def catSummaryOf (a : List (String × AnalysisValue)) :
    List (String × List (Value × Nat)) :=
  match a.lookup "categorical_summary" with
  | some (.cat l) => l
  | _ => []

/-- `self.data` after the `if self.data is None: self.load_data()` prologue
shared by `analyze` and `create_visualizations`. -/
def ensureData (rng : NumpyRNG) (lfs : LoadFS) (st : NpState) (s : Session) :
    DataFrame × Session × NpState :=
  match s.data with
  | some df => (df, s, st)
  | none => load_data rng lfs st s

/-- `DataAnalyzer.analyze`: load when no table is cached, then build the
analysis dict from the cached table. -/
def analyze (rng : NumpyRNG) (lfs : LoadFS) (st : NpState) (s : Session) :
    List (String × AnalysisValue) × Session × NpState :=
  let r := ensureData rng lfs st s
  (analyzeTable r.1, r.2.1, r.2.2)

/-- What is drawn on one axes slot. -/
inductive PlotKind where
  | hist (bins : Nat)
  | bar
deriving DecidableEq, Repr

/-- One rendered sub-plot: its title, x-label and kind. -/
structure Panel where
  title : String
  xlabel : String
  kind : PlotKind
deriving DecidableEq, Repr

/-- A figure: the number of axes allocated by `plt.subplots` and, per axes
slot, the panel drawn on it (`none` = left blank). -/
structure Fig where
  nAxes : Nat
  panels : List (Option Panel)
deriving DecidableEq, Repr

/-- An image file written by `plt.savefig`: directory, file name, figure. -/
structure PlotFile where
  dir : String
  name : String
  fig : Fig
deriving DecidableEq, Repr

/-- The one unrecoverable error of the visualizer path. -/
inductive PermError where
  | permissionDenied
deriving DecidableEq, Repr

/-- The file system at the output directory: whether the directory already
exists and whether the process may create it. -/
structure DirFS where
  dirExists : Bool
  canCreate : Bool
deriving DecidableEq, Repr

/-- `save_dir.mkdir(exist_ok=True)`: succeeds silently when the directory
exists, creates it when allowed, raises `PermissionError` otherwise.  No
handler in `create_visualizations` catches it. -/
def mkdirExistOk (fs : DirFS) : Except PermError DirFS :=
  if fs.dirExists then .ok fs
  else if fs.canCreate then .ok { dirExists := true, canCreate := fs.canCreate }
  else .error .permissionDenied

/-- Figure 1 of `create_visualizations`: `plt.subplots(1, len(numeric_cols))`
allocates one axes per numeric column; the loop draws a 30-bin histogram
titled `Distribuição de <col>` on axes i for every numeric column except
`id`, whose axes is left blank (`# Pula colunas de ID`). -/
def distributionsFig (df : DataFrame) : Fig :=
  { nAxes := (numericCols df).length,
    panels := (numericCols df).map (fun c =>
      if c.name == "id" then none
      else some { title := "Distribuição de " ++ c.name, xlabel := c.name,
                  kind := .hist 30 }) }

/-- Figure 2 of `create_visualizations`: one descending-count bar chart per
object/category/bool column, titled `Contagem de <col>`. -/
def categoricalFig (df : DataFrame) : Fig :=
  { nAxes := (catPlotCols df).length,
    panels := (catPlotCols df).map (fun c =>
      some { title := "Contagem de " ++ c.name, xlabel := c.name,
             kind := .bar }) }

/-- The files `create_visualizations` writes: `distribuicoes.png` whenever at
least one numeric column exists (`if len(numeric_cols) > 0`), then
`categoricas.png` whenever at least one object/category/bool column exists. -/
def renderFiles (df : DataFrame) (savePath : String) : List PlotFile :=
  (if (numericCols df).length > 0 then
    [{ dir := savePath, name := "distribuicoes.png", fig := distributionsFig df }]
   else []) ++
  (if (catPlotCols df).length > 0 then
    [{ dir := savePath, name := "categoricas.png", fig := categoricalFig df }]
   else [])

/-- The visualizer body after the data is cached: create the output directory
(`mkdir(exist_ok=True)`), then write the figures.  A permission failure from
`mkdir` propagates. -/
def createVisualizationsBody (df : DataFrame) (savePath : String)
    (dfs : DirFS) : Except PermError (DirFS × List PlotFile) :=
  match mkdirExistOk dfs with
  | .error e => .error e
  | .ok dfs1 => .ok (dfs1, renderFiles df savePath)

/-- `DataAnalyzer.create_visualizations`: load when no table is cached, then
run the visualizer body.  The session (with its cached table) is returned
alongside the fallible file-system outcome because the load happens before
`mkdir` can raise. -/
def create_visualizations (rng : NumpyRNG) (lfs : LoadFS) (dfs : DirFS)
    (savePath : String) (st : NpState) (s : Session) :
    Except PermError (DirFS × List PlotFile) × Session × NpState :=
  let r := ensureData rng lfs st s
  (createVisualizationsBody r.1 savePath dfs, r.2.1, r.2.2)

/-! Concrete instances used by witnesses and counterexamples. -/

/-- A trivial instance of the abstract randomness (constant stream). -/
def rng0 : NumpyRNG :=
  { word := fun _ _ => 0, gauss := fun _ => 0, ltP7 := fun _ => false }

/-- A file system where the configured data path does not exist. -/
def lfs0 : LoadFS := { pathExists := false, parseResult := none }

def st0 : NpState := { seed := 0, pos := 0 }

def sess0 : Session := DataAnalyzer.init "data/sample_data.csv"

/-- `pd.DataFrame()`: the degenerate table with zero rows and columns. -/
def emptyDF : DataFrame := { cols := [] }

/-- A table with a single object column and no numeric column. -/
def dfCat : DataFrame :=
  { cols := [{ name := "categoria", dtype := .object, values := [.strVal "A"] }] }

/-- A table whose only numeric column is the identifier column. -/
def dfIdOnly : DataFrame :=
  { cols := [{ name := "id", dtype := .int64, values := [.intVal 1] }] }

/-- A table with the identifier and one further numeric column. -/
def dfIdValor : DataFrame :=
  { cols := [{ name := "id", dtype := .int64, values := [.intVal 1] },
             { name := "valor", dtype := .float64, values := [.floatVal 0] }] }

/-- Whether `p` is a character-wise prefix of `s` (the `p*` file-name
pattern). -/
def strPrefix (p s : String) : Bool :=
  p.data.isPrefixOf s.data

/-! Helper lemmas. -/

theorem sampleTable_shape (rng : NumpyRNG) : (sampleTable rng).shape = (1000, 5) := by
  have h : (sampleTable rng).shape = (idVals.length, 5) := rfl
  rw [h, idVals, List.length_map, List.length_range, nSamples]

theorem nullCount_map_eq_zero (f : Nat → Value) (hf : ∀ i, f i ≠ Value.null)
    (l : List Nat) : nullCount (l.map f) = 0 := by
  unfold nullCount
  rw [List.countP_eq_zero]
  intro a ha
  obtain ⟨i, _, rfl⟩ := List.mem_map.1 ha
  simpa using hf i

theorem nullCount_idVals : nullCount idVals = 0 :=
  nullCount_map_eq_zero (fun (i : Nat) => Value.intVal ((i : Int) + 1))
    (fun i => by simp) (List.range nSamples)

theorem nullCount_categoriaVals (rng : NumpyRNG) : nullCount (categoriaVals rng) = 0 :=
  nullCount_map_eq_zero
    (fun i => Value.strVal (categoriaLetters.getD (rng.word 42 i % 4) "A"))
    (fun i => by simp) (List.range nSamples)

theorem nullCount_valorVals (rng : NumpyRNG) : nullCount (valorVals rng) = 0 :=
  nullCount_map_eq_zero (fun i => Value.floatVal (rng.gauss (rng.word 42 (nSamples + i))))
    (fun i => by simp) (List.range nSamples)

theorem nullCount_dataVals : nullCount dataVals = 0 :=
  nullCount_map_eq_zero (fun i => Value.dateVal i) (fun i => by simp) (List.range nSamples)

theorem nullCount_ativoVals (rng : NumpyRNG) : nullCount (ativoVals rng) = 0 :=
  nullCount_map_eq_zero
    (fun i => Value.boolVal (rng.ltP7 (rng.word 42 (2 * nSamples + i))))
    (fun i => by simp) (List.range nSamples)

theorem getD_letters_mem (n : Nat) : categoriaLetters.getD n "A" ∈ categoriaLetters := by
  rcases n with _ | _ | _ | _ | m <;> simp [categoriaLetters]

theorem load_data_sets_data (rng : NumpyRNG) (lfs : LoadFS) (st : NpState)
    (s : Session) : (load_data rng lfs st s).2.1.data = some (load_data rng lfs st s).1 := by
  unfold load_data generate_sample_data
  rcases hp : lfs.pathExists
  · simp
  · rcases hr : lfs.parseResult <;> simp

theorem ensureData_sets_data (rng : NumpyRNG) (lfs : LoadFS) (st : NpState)
    (s : Session) : (ensureData rng lfs st s).2.1.data = some (ensureData rng lfs st s).1 := by
  unfold ensureData
  rcases hd : s.data
  · simpa using load_data_sets_data rng lfs st s
  · simpa using hd

theorem lookup_numeric_summary (df : DataFrame) :
    (analyzeTable df).lookup "numeric_summary" =
      some (.numeric (if (numericCols df).length > 0 then describeSumm df else [])) := rfl

theorem catSummaryOf_analyzeTable (df : DataFrame) :
    catSummaryOf (analyzeTable df) =
      (objectCols df).map (fun c => (c.name, valueCounts c.values)) := rfl

/-! The claims. -/

/-- C1: `load_data` never raises (it is a total function of the modelled file
system): whenever the path does not exist or `pd.read_csv` fails, it falls
back to `generate_sample_data` and returns that table, whose shape is
(1000, 5). -/
theorem claimC1_load_data_fallback (rng : NumpyRNG) (lfs : LoadFS) (st : NpState)
    (s : Session) (h : lfs.pathExists = false ∨ lfs.parseResult = none) :
    (load_data rng lfs st s).1 = sampleTable rng ∧
      (load_data rng lfs st s).1.shape = (1000, 5) := by
  have hfall : (load_data rng lfs st s).1 = sampleTable rng := by
    unfold load_data generate_sample_data
    rcases h with h | h
    · simp [h]
    · rcases hp : lfs.pathExists <;> simp [h]
  exact ⟨hfall, by rw [hfall]; exact sampleTable_shape rng⟩

/-- Witness for C1 at a nonexistent path. -/
theorem claimC1_witness :
    (load_data rng0 lfs0 st0 sess0).1 = sampleTable rng0 ∧
      (load_data rng0 lfs0 st0 sess0).1.shape = (1000, 5) :=
  claimC1_load_data_fallback rng0 lfs0 st0 sess0 (Or.inl rfl)

/-- C2: for every instance of the abstract randomness, the generated sample
table has shape (1000, 5), no column has missing values, every `categoria`
value is one of the letters A–D, and the `id` column is exactly the sequence
1..1000, without duplicates. -/
theorem claimC2_generate_sample_data_schema (rng : NumpyRNG) (st : NpState) (s : Session) :
    ((generate_sample_data rng st s).1.shape = (1000, 5))
    ∧ (∀ c, c ∈ (generate_sample_data rng st s).1.cols → nullCount c.values = 0)
    ∧ (∀ c, (generate_sample_data rng st s).1.colNamed "categoria" = some c →
        ∀ v, v ∈ c.values → v ∈ categoriaLetters.map Value.strVal)
    ∧ (∀ c, (generate_sample_data rng st s).1.colNamed "id" = some c →
        c.values = (List.range 1000).map (fun (i : Nat) => Value.intVal ((i : Int) + 1))
          ∧ c.values.Nodup) := by
  have hdf : (generate_sample_data rng st s).1 = sampleTable rng := rfl
  refine ⟨by rw [hdf]; exact sampleTable_shape rng, ?_, ?_, ?_⟩
  · intro c hc
    rw [hdf] at hc
    simp [sampleTable] at hc
    rcases hc with rfl | rfl | rfl | rfl | rfl
    · exact nullCount_idVals
    · exact nullCount_categoriaVals rng
    · exact nullCount_valorVals rng
    · exact nullCount_dataVals
    · exact nullCount_ativoVals rng
  · intro c hc v hv
    rw [hdf] at hc
    have hc2 : { name := "categoria", dtype := .object, values := categoriaVals rng : Column } = c := by
      simpa [sampleTable, DataFrame.colNamed] using hc
    rw [← hc2] at hv
    simp only [categoriaVals] at hv
    obtain ⟨i, _, rfl⟩ := List.mem_map.1 hv
    exact List.mem_map.2 ⟨_, getD_letters_mem _, rfl⟩
  · intro c hc
    rw [hdf] at hc
    have hc2 : { name := "id", dtype := .int64, values := idVals : Column } = c := by
      simpa [sampleTable, DataFrame.colNamed] using hc
    rw [← hc2]
    refine ⟨?_, ?_⟩
    · rw [idVals, nSamples]
    · rw [idVals]
      refine List.Nodup.map ?_ (List.nodup_range nSamples)
      intro a b hab
      simp only [Value.intVal.injEq, add_left_inj] at hab
      exact_mod_cast hab

/-- Witness for C2 at the trivial randomness instance. -/
theorem claimC2_witness :
    (generate_sample_data rng0 st0 sess0).1.shape = (1000, 5) :=
  (claimC2_generate_sample_data_schema rng0 st0 sess0).1

/-- C3: `generate_sample_data` reseeds the global generator with 42 before
drawing, so for one fixed random algorithm the generated table is the same
whatever the generator state and session were beforehand: any two calls, in
any two runs, produce identical `id`, `categoria`, `valor`, `data` and
`ativo` columns. -/
theorem claimC3_generate_sample_data_deterministic (rng : NumpyRNG)
    (st1 st2 : NpState) (s1 s2 : Session) :
    (generate_sample_data rng st1 s1).1 = (generate_sample_data rng st2 s2).1 := rfl

/-- Witness for C3 at two different prior states. -/
theorem claimC3_witness :
    (generate_sample_data rng0 st0 sess0).1 =
      (generate_sample_data rng0 { seed := 7, pos := 123 }
        { dataPath := "x", data := some emptyDF }).1 :=
  claimC3_generate_sample_data_deterministic rng0 st0
    { seed := 7, pos := 123 } sess0 { dataPath := "x", data := some emptyDF }

/-- C4, counterexample: for a table with no numeric column (here one `object`
column), the `analyze` result still contains the `numeric_summary` key — it is
present and mapped to the empty summary, not absent as the claim states. -/
theorem claimC4_counterexample :
    ("numeric_summary" ∈
      (analyze rng0 lfs0 st0 { dataPath := "p", data := some dfCat }).1.map Prod.fst)
    ∧ (analyze rng0 lfs0 st0 { dataPath := "p", data := some dfCat }).1.lookup
        "numeric_summary" = some (.numeric []) := by
  constructor
  · have h : (analyze rng0 lfs0 st0 { dataPath := "p", data := some dfCat }).1.map Prod.fst =
        ["shape", "columns", "dtypes", "missing_values", "numeric_summary",
         "categorical_summary"] := rfl
    rw [h]
    decide
  · rfl

/-- C4 (amended): for every table with no numeric column, the `analyze` result
keeps the `numeric_summary` key, mapped to the empty summary (`describe` is
not invoked); the key is never omitted. -/
theorem claimC4_numeric_summary_empty (rng : NumpyRNG) (lfs : LoadFS) (st : NpState)
    (s : Session) (df : DataFrame) (hd : s.data = some df)
    (h : numericCols df = []) :
    (analyze rng lfs st s).1.lookup "numeric_summary" = some (.numeric []) := by
  have h1 : (ensureData rng lfs st s).1 = df := by simp [ensureData, hd]
  show (analyzeTable (ensureData rng lfs st s).1).lookup "numeric_summary" = _
  rw [h1, lookup_numeric_summary, h]
  simp

/-- Witness for C4 at a one-column object table. -/
theorem claimC4_witness :
    ({ dataPath := "p", data := some dfCat } : Session).data = some dfCat
    ∧ numericCols dfCat = []
    ∧ (analyze rng0 lfs0 st0 { dataPath := "p", data := some dfCat }).1.lookup
        "numeric_summary" = some (.numeric []) :=
  ⟨rfl, rfl, claimC4_numeric_summary_empty rng0 lfs0 st0 _ dfCat rfl rfl⟩

/-- C5, counterexample: `analyze` on the sample dataset (loaded through the
fallback) has a categorical-summary entry for `categoria` only: the non-numeric
columns `ativo` (bool) and `data` (datetime) get no entry, because the
comprehension selects `['object', 'category']` dtypes only. -/
theorem claimC5_counterexample :
    ((catSummaryOf (analyze rng0 lfs0 st0 sess0).1).map Prod.fst = ["categoria"])
    ∧ ("ativo" ∉ (catSummaryOf (analyze rng0 lfs0 st0 sess0).1).map Prod.fst)
    ∧ ("data" ∉ (catSummaryOf (analyze rng0 lfs0 st0 sess0).1).map Prod.fst) := by
  have h : (catSummaryOf (analyze rng0 lfs0 st0 sess0).1).map Prod.fst = ["categoria"] := rfl
  refine ⟨h, ?_, ?_⟩ <;> rw [h] <;> decide

/-- C5 (amended): the categorical summary has exactly one entry per column of
`object`/`category` dtype — boolean, datetime and numeric columns are excluded
— mapping its name to its value-frequency table; on the sample dataset the
only entry is for `categoria` (in particular none for `ativo`). -/
theorem claimC5_categorical_summary (rng : NumpyRNG) (lfs : LoadFS) (st : NpState)
    (s : Session) (df : DataFrame) (hd : s.data = some df) :
    ((catSummaryOf (analyze rng lfs st s).1).map Prod.fst =
      (objectCols df).map (fun c => c.name))
    ∧ (∀ c, c ∈ df.cols → isObjectDtype c.dtype = true →
        (c.name, valueCounts c.values) ∈ catSummaryOf (analyze rng lfs st s).1)
    ∧ ((catSummaryOf (analyzeTable (sampleTable rng))).map Prod.fst = ["categoria"]) := by
  have h1 : (ensureData rng lfs st s).1 = df := by simp [ensureData, hd]
  have h2 : catSummaryOf (analyze rng lfs st s).1 =
      (objectCols df).map (fun c => (c.name, valueCounts c.values)) := by
    show catSummaryOf (analyzeTable (ensureData rng lfs st s).1) = _
    rw [h1, catSummaryOf_analyzeTable]
  refine ⟨?_, ?_, rfl⟩
  · rw [h2, List.map_map]
    rfl
  · intro c hc hobj
    rw [h2]
    exact List.mem_map.2 ⟨c, List.mem_filter.2 ⟨hc, hobj⟩, rfl⟩

/-- Witness for C5 at a one-column object table. -/
theorem claimC5_witness :
    ("categoria", valueCounts [Value.strVal "A"]) ∈
      catSummaryOf (analyze rng0 lfs0 st0 { dataPath := "p", data := some dfCat }).1 :=
  (claimC5_categorical_summary rng0 lfs0 st0 _ dfCat rfl).2.1
    { name := "categoria", dtype := .object, values := [.strVal "A"] }
    (by decide) (by decide)

/-- C6, counterexample: for a table whose only numeric column is `id` (zero
eligible columns after excluding the identifier), `create_visualizations`
still writes the distributions image — a figure with one axes slot and no
histogram — instead of skipping it as the claim states. -/
theorem claimC6_counterexample :
    (create_visualizations rng0 lfs0 { dirExists := true, canCreate := true } "plots/" st0
        { dataPath := "p", data := some dfIdOnly }).1 =
      .ok ({ dirExists := true, canCreate := true },
        [{ dir := "plots/", name := "distribuicoes.png",
           fig := { nAxes := 1, panels := [none] } }]) := rfl

/-- C6 (amended): the distributions image allocates one axes slot per numeric
column including the identifier (whose slot is left blank); a 30-bin
histogram titled with the column name is drawn exactly for the numeric columns
other than `id`; the image is written whenever at least one numeric column
exists — even when that column is `id` alone — and skipped only when the
table has no numeric column at all. -/
theorem claimC6_distributions (df : DataFrame) (savePath : String) :
    (numericCols df = [] → ∀ f, f ∈ renderFiles df savePath → f.name ≠ "distribuicoes.png")
    ∧ (numericCols df ≠ [] →
        ({ dir := savePath, name := "distribuicoes.png", fig := distributionsFig df } :
          PlotFile) ∈ renderFiles df savePath)
    ∧ ((distributionsFig df).panels.length = (numericCols df).length)
    ∧ (∀ c, c ∈ numericCols df → c.name ≠ "id" →
        some ({ title := "Distribuição de " ++ c.name, xlabel := c.name,
                kind := .hist 30 } : Panel) ∈ (distributionsFig df).panels)
    ∧ (∀ c, c ∈ numericCols df → c.name = "id" →
        none ∈ (distributionsFig df).panels) := by
  refine ⟨?_, ?_, ?_, ?_, ?_⟩
  · intro h f hf
    unfold renderFiles at hf
    rw [h] at hf
    simp only [List.length_nil] at hf
    rw [if_neg (lt_irrefl 0)] at hf
    simp only [List.nil_append] at hf
    by_cases hcat : (catPlotCols df).length > 0
    · rw [if_pos hcat] at hf
      simp at hf
      rw [hf]
      show ("categoricas.png" : String) ≠ "distribuicoes.png"
      decide
    · rw [if_neg hcat] at hf
      exact absurd hf (List.not_mem_nil f)
  · intro h
    unfold renderFiles
    rw [if_pos (List.length_pos.mpr h)]
    exact List.mem_append.2 (Or.inl (List.mem_singleton.2 rfl))
  · simp [distributionsFig]
  · intro c hc hne
    simp only [distributionsFig]
    refine List.mem_map.2 ⟨c, hc, ?_⟩
    have hb : (c.name == "id") = false := beq_eq_false_iff_ne.mpr hne
    simp [hb]
  · intro c hc hid
    simp only [distributionsFig]
    refine List.mem_map.2 ⟨c, hc, ?_⟩
    simp [hid]

/-- Witness for C6 at a table with numeric columns `id` and `valor`. -/
theorem claimC6_witness :
    some ({ title := "Distribuição de valor", xlabel := "valor",
            kind := .hist 30 } : Panel) ∈ (distributionsFig dfIdValor).panels :=
  (claimC6_distributions dfIdValor "plots/").2.2.2.1
    { name := "valor", dtype := .float64, values := [.floatVal 0] }
    (by decide) (by decide)

/-- C7: `analyze` on the degenerate zero-row, zero-column table does not fail
(it is total) and returns shape (0, 0), an empty column list and empty numeric
and categorical summaries. -/
theorem claimC7_analyze_empty :
    (analyze rng0 lfs0 st0 { dataPath := "p", data := some emptyDF }).1 =
      [("shape", .shape 0 0), ("columns", .columns []), ("dtypes", .dtypes []),
       ("missing_values", .missing []), ("numeric_summary", .numeric []),
       ("categorical_summary", .cat [])] := rfl

/-- C8: `create_visualizations` succeeds when the output directory already
exists (idempotent `mkdir(exist_ok=True)`), creates it when absent and
permitted, and lets a permission failure on creation surface to the caller
as an uncaught error. -/
theorem claimC8_mkdir (rng : NumpyRNG) (lfs : LoadFS) (dfs : DirFS)
    (savePath : String) (st : NpState) (s : Session) :
    (dfs.dirExists = true →
      (create_visualizations rng lfs dfs savePath st s).1 =
        .ok (dfs, renderFiles (ensureData rng lfs st s).1 savePath))
    ∧ (dfs.dirExists = false → dfs.canCreate = true →
      (create_visualizations rng lfs dfs savePath st s).1 =
        .ok ({ dirExists := true, canCreate := true },
          renderFiles (ensureData rng lfs st s).1 savePath))
    ∧ (dfs.dirExists = false → dfs.canCreate = false →
      (create_visualizations rng lfs dfs savePath st s).1 = .error .permissionDenied) := by
  have hb : (create_visualizations rng lfs dfs savePath st s).1 =
      createVisualizationsBody (ensureData rng lfs st s).1 savePath dfs := rfl
  refine ⟨?_, ?_, ?_⟩
  · intro h
    rw [hb]
    unfold createVisualizationsBody mkdirExistOk
    rw [h]
    simp
  · intro h1 h2
    rw [hb]
    unfold createVisualizationsBody mkdirExistOk
    rw [h1, h2]
    simp
  · intro h1 h2
    rw [hb]
    unfold createVisualizationsBody mkdirExistOk
    rw [h1, h2]
    simp

/-- Witness for C8: with the directory absent and creation forbidden, the
permission error reaches the caller. -/
theorem claimC8_witness :
    (create_visualizations rng0 lfs0 { dirExists := false, canCreate := false }
        "plots/" st0 sess0).1 = .error .permissionDenied :=
  (claimC8_mkdir rng0 lfs0 { dirExists := false, canCreate := false }
    "plots/" st0 sess0).2.2 rfl rfl

/-- C9, counterexample: the two files written for the sample dataset are named
`distribuicoes.png` and `categoricas.png`; neither matches the claimed
`distributions.*` / `categorical.*` patterns. -/
theorem claimC9_counterexample :
    ((renderFiles (sampleTable rng0) "plots/").map (fun f => f.name) =
      ["distribuicoes.png", "categoricas.png"])
    ∧ (strPrefix "distributions." "distribuicoes.png" = false)
    ∧ (strPrefix "categorical." "categoricas.png" = false) :=
  ⟨rfl, by decide, by decide⟩

/-- C9 (amended): every image file is written into the configured output
directory and is named `distribuicoes.png` or `categoricas.png`; on the
sample dataset both files are produced, in that order. -/
theorem claimC9_output_files (df : DataFrame) (savePath : String) (rng : NumpyRNG) :
    (∀ f, f ∈ renderFiles df savePath →
      f.dir = savePath ∧ (f.name = "distribuicoes.png" ∨ f.name = "categoricas.png"))
    ∧ ((renderFiles (sampleTable rng) savePath).map (fun f => f.name) =
        ["distribuicoes.png", "categoricas.png"]) := by
  refine ⟨?_, rfl⟩
  intro f hf
  unfold renderFiles at hf
  rcases List.mem_append.1 hf with h | h
  · by_cases hn : (numericCols df).length > 0
    · rw [if_pos hn] at h
      simp at h
      rw [h]
      exact ⟨rfl, Or.inl rfl⟩
    · rw [if_neg hn] at h
      exact absurd h (List.not_mem_nil f)
  · by_cases hn : (catPlotCols df).length > 0
    · rw [if_pos hn] at h
      simp at h
      rw [h]
      exact ⟨rfl, Or.inr rfl⟩
    · rw [if_neg hn] at h
      exact absurd h (List.not_mem_nil f)

/-- Witness for C9 at the categorical image of a one-column object table. -/
theorem claimC9_witness :
    ({ dir := "out/", name := "categoricas.png", fig := categoricalFig dfCat } :
        PlotFile).dir = "out/"
    ∧ (({ dir := "out/", name := "categoricas.png", fig := categoricalFig dfCat } :
        PlotFile).name = "distribuicoes.png"
      ∨ ({ dir := "out/", name := "categoricas.png", fig := categoricalFig dfCat } :
        PlotFile).name = "categoricas.png") :=
  (claimC9_output_files dfCat "out/" rng0).1
    { dir := "out/", name := "categoricas.png", fig := categoricalFig dfCat }
    (by decide)

/-- C10: after any public operation — `analyze`, `create_visualizations`
(whatever the mkdir outcome), `load_data` or `generate_sample_data` — the
session's cached table is populated, never `None`: the first two load or
generate the data themselves when nothing is cached. -/
theorem claimC10_session_data_populated (rng : NumpyRNG) (lfs : LoadFS) (dfs : DirFS)
    (savePath : String) (st : NpState) (s : Session) :
    ((analyze rng lfs st s).2.1.data ≠ none)
    ∧ ((create_visualizations rng lfs dfs savePath st s).2.1.data ≠ none)
    ∧ ((load_data rng lfs st s).2.1.data ≠ none)
    ∧ ((generate_sample_data rng st s).2.1.data ≠ none) := by
  have he := ensureData_sets_data rng lfs st s
  refine ⟨?_, ?_, ?_, ?_⟩
  · show (ensureData rng lfs st s).2.1.data ≠ none
    rw [he]
    simp
  · show (ensureData rng lfs st s).2.1.data ≠ none
    rw [he]
    simp
  · rw [load_data_sets_data rng lfs st s]
    simp
  · show ({ s with data := some (sampleTable rng) } : Session).data ≠ none
    simp

/-- Witness for C10 on a fresh session with a nonexistent data path. -/
theorem claimC10_witness :
    (analyze rng0 lfs0 st0 sess0).2.1.data ≠ none :=
  (claimC10_session_data_populated rng0 lfs0 { dirExists := true, canCreate := true }
    "plots/" st0 sess0).1

end ProjetoExemplo
